import Mathlib

/-!
  Verification of the wqxtools GVBASIC simulator core (src/gui):
  the program lifecycle state machine (GvbEditor::initStateMachine),
  the cooperative execution scheduler (GvbSimWindow::execLater and the
  surrounding slots), and the structured keyboard-input dialog
  (GvbSimInputDialog).  Each definition is a shallow embedding of the
  corresponding C++ function; ghost counters record externally observable
  effects (engine step calls, timer arms, forwarded errors) that the C++
  performs through the external engine ABI or Qt.
-/

namespace Wqxtools

/-- Lifecycle states of a program run, as used by the QStateMachine built in
GvbEditor::initStateMachine.  The machine starts in Stopped. -/
inductive LifecycleState
  | Stopped
  | Started
  | Paused
deriving DecidableEq, Repr

/-- The four events raised by UI actions and by the scheduler, connected as
signal transitions in GvbEditor::initStateMachine. -/
inductive LifecycleEvent
  | start
  | pause
  | cont
  | stop
deriving DecidableEq, Repr

namespace GvbEditor

/-- The transition function of the QStateMachine, read off the five
addTransition calls in GvbEditor::initStateMachine.  An event with no
outgoing transition from the current state is ignored by Qt, hence the
catch-all case returning the current state. -/
def transition : LifecycleState → LifecycleEvent → LifecycleState
  | .Stopped, .start => .Started
  | .Started, .pause => .Paused
  | .Paused, .cont => .Started
  | .Started, .stop => .Stopped
  | .Paused, .stop => .Stopped
  | s, _ => s

/-- Whether one of the five registered transitions matches, i.e. whether a
state-entry callback will run for this event. -/
def fires : LifecycleState → LifecycleEvent → Bool
  | .Stopped, .start => true
  | .Started, .pause => true
  | .Paused, .cont => true
  | .Started, .stop => true
  | .Paused, .stop => true
  | _, _ => false

/-- The editor-side UI state touched by the state-entry callbacks in
GvbEditor::initStateMachine and GvbEditor::updateStartAction: the text of the
start action, whether the stop action is enabled, and whether a runtime
error diagnostic is currently displayed.  hasSimWindow mirrors m_gvbsim,
which distinguishes first run from re-run. -/
structure EditorUi where
  startText : String
  stopEnabled : Bool
  runtimeErrorShown : Bool
  hasSimWindow : Bool
deriving DecidableEq, Repr

/-- GvbEditor::updateStartAction, which sets the label of the start action
according to the state being entered. -/
def updateStartAction (st : LifecycleState) (ui : EditorUi) : EditorUi :=
  match st with
  | .Stopped =>
    if ui.hasSimWindow then { ui with startText := "运行" }
    else { ui with startText := "启动模拟器" }
  | .Paused => { ui with startText := "继续" }
  | .Started => { ui with startText := "暂停" }

/-- The state-entry callbacks connected in GvbEditor::initStateMachine.
They only mutate UI state; none of them raises a further lifecycle event,
which the type of this function makes evident (it returns an EditorUi and
produces no event). -/
def onEnter (st : LifecycleState) (ui : EditorUi) : EditorUi :=
  match st with
  | .Started =>
    { updateStartAction .Started ui with
        stopEnabled := true, runtimeErrorShown := false }
  | .Stopped => { updateStartAction .Stopped ui with stopEnabled := false }
  | .Paused => { updateStartAction .Paused ui with stopEnabled := true }

/-- Dispatching one event on the QStateMachine: if a registered transition
matches, move to its target and run the target state-entry callback once;
otherwise the event is dropped without error and no callback runs. -/
def dispatch (p : LifecycleState × EditorUi) (e : LifecycleEvent) :
    LifecycleState × EditorUi :=
  if fires p.1 e then (transition p.1 e, onEnter (transition p.1 e) p.2) else p

end GvbEditor

/-- Modelled from the spec: the reference transition table of section 4.1.
Stopped goes to Started on start; Started goes to Paused on pause; Paused
goes to Started on cont; Started or Paused go to Stopped on stop; every
other event is dropped as a no-op. -/
def refTransition : LifecycleState → LifecycleEvent → LifecycleState
  | .Stopped, .start => .Started
  | .Started, .pause => .Paused
  | .Paused, .cont => .Started
  | .Started, .stop => .Stopped
  | .Paused, .stop => .Stopped
  | s, _ => s


/-- A source location of a runtime error, as carried by the Error variant of
GvbExecResult in the C ABI and consumed by GvbEditor::showRuntimeError. -/
structure Location where
  line : Nat
  start_column : Nat
  end_column : Nat
deriving DecidableEq, Repr

/-- The tagged result of one engine step call (api GvbExecResult). -/
inductive GvbExecResult
  | Continue
  | Sleep (ns : Nat)
  | InKey
  | KeyboardInput
  | Error (location : Location) (message : String)
  | End
deriving DecidableEq, Repr

/-- The input fed into the next engine step call (api GvbExecInput): None
normally, Key after gvb_assign_device_key succeeded, KeyboardInput right
after the structured-input dialog was accepted. -/
inductive GvbExecInput
  | None
  | Key
  | KeyboardInput
deriving DecidableEq, Repr

/-- The behaviour of the external collaborators during a run: the result the
engine returns for the k-th step call, whether the device currently has a
buffered key assignable as input, whether gvb_vm_stop reports a secondary
error, and whether the structured-input dialog ends accepted. -/
structure Env where
  execRet : Nat → GvbExecResult
  assignKey : Bool
  stopErr : Bool
  dialogAccepts : Bool

/-- The observable state of the simulator window (GvbSimWindow) combined
with the lifecycle state of the editor state machine.  The Bool timer fields
mirror whether the stored Qt timer id is nonzero; the ghost counters record
calls into the external ABI: cursorStarts counts startTimer calls made by
startCursorTimer, steps counts gvb_vm_exec calls, vmStopCalls counts
gvb_vm_stop calls, stopErrorsShown counts secondary-error message boxes,
errorsSunk records the arguments forwarded to GvbEditor::showRuntimeError,
stopRaised counts emissions of the editor stop signal, and sleepTimer holds
the duration in milliseconds of the armed one-shot sleep timer, if any. -/
structure Sys where
  lifecycle : LifecycleState
  paused : Bool
  execResult : GvbExecResult
  execInput : GvbExecInput
  timerCursor : Bool
  timerRepaint : Bool
  sleepTimer : Option Nat
  cursorStarts : Nat
  steps : Nat
  vmStopCalls : Nat
  stopErrorsShown : Nat
  errorsSunk : List (Location × String)
  stopRaised : Nat
deriving DecidableEq, Repr

namespace GvbSimWindow

/-- GvbSimWindow::startCursorTimer: unconditionally arms a fresh 500 ms Qt
timer and overwrites the stored timer id with the new one. -/
def startCursorTimer (s : Sys) : Sys :=
  { s with timerCursor := true, cursorStarts := s.cursorStarts + 1 }

/-- GvbSimWindow::stopCursorTimer: kills the timer whose id is currently
stored, if any, and zeroes the stored id. -/
def stopCursorTimer (s : Sys) : Sys :=
  { s with timerCursor := false }

/-- GvbSimWindow::startRepaintTimer: arms the 17 ms repaint timer. -/
def startRepaintTimer (s : Sys) : Sys :=
  { s with timerRepaint := true }

/-- GvbSimWindow::stopRepaintTimer: kills the repaint timer if armed. -/
def stopRepaintTimer (s : Sys) : Sys :=
  { s with timerRepaint := false }

/-- GvbSimWindow::stop, the slot connected to the editor stop signal.  It
stops both timers; if the last result is already End it returns at once;
otherwise it calls gvb_vm_stop, shows a message box when that reports an
error, and forces the last result to End. -/
def stop (env : Env) (s : Sys) : Sys :=
  let s := stopRepaintTimer (stopCursorTimer s)
  match s.execResult with
  | GvbExecResult.End => s
  | _ =>
    let s := { s with vmStopCalls := s.vmStopCalls + 1 }
    let s :=
      if env.stopErr then { s with stopErrorsShown := s.stopErrorsShown + 1 }
      else s
    { s with execResult := GvbExecResult.End }

/-- Emission of the editor stop signal from inside the window (emit
m_editor->stop()): the directly connected GvbSimWindow::stop slot runs, and
the state machine processes the stop event. -/
def emitStop (env : Env) (s : Sys) : Sys :=
  let s := stop env { s with stopRaised := s.stopRaised + 1 }
  { s with lifecycle := GvbEditor.transition s.lifecycle LifecycleEvent.stop }

/-- The tail of the execLater lambda: one bounded call to gvb_vm_exec with
the pending input, replacing the last result with the returned one and
clearing the pending input; the lambda then schedules the next execLater
invocation and returns. -/
def doStep (env : Env) (s : Sys) : Sys :=
  { s with
      execResult := env.execRet s.steps,
      execInput := GvbExecInput.None,
      steps := s.steps + 1 }

/-- The value of the C++ expression (ns + 500000) / 1000000 in
GvbSimWindow::sleep, evaluated in 64-bit unsigned arithmetic; this 64-bit
quotient is then narrowed to the int msec parameter of QTimer singleShot
at the call site. -/
def sleepMs (ns : Nat) : Nat :=
  ((ns + 500000) % 2 ^ 64) / 1000000

/-- The int msec argument that QTimer singleShot receives: the 64-bit
quotient narrowed to a 32-bit signed int with the usual modular
(two's-complement) conversion; values of the truncated quotient at or above
2 to the 31 come out negative. -/
def sleepMsecArg (ns : Nat) : Int :=
  if sleepMs ns % 2 ^ 32 < 2 ^ 31 then ((sleepMs ns % 2 ^ 32 : Nat) : Int)
  else ((sleepMs ns % 2 ^ 32 : Nat) : Int) - 2 ^ 32

/-- The one-shot sleep timer actually armed by GvbSimWindow::sleep: for a
nonnegative msec argument Qt arms a timer of that many milliseconds; for a
negative msec argument Qt warns and arms no timer at all. -/
def armedSleepTimer (ns : Nat) : Option Nat :=
  if sleepMsecArg ns < 0 then none else some (sleepMsecArg ns).toNat

/-- One invocation of the lambda scheduled by GvbSimWindow::execLater: if
paused, do nothing; otherwise inspect the last result.  End raises stop.
Continue falls through to one step call.  Sleep arms the one-shot sleep
timer and returns without stepping.  InKey asks the device for a buffered
key: if none, start the cursor timer and return; if assigned, stop the
cursor timer and fall through to step.  KeyboardInput starts the cursor
timer and opens the modal dialog: a rejected dialog raises stop; an
accepted one packages the values as the next input, stops the cursor timer
and falls through to step.  Error forwards the location and message to
GvbEditor::showRuntimeError, sets the result to End and raises stop. -/
def execLater (env : Env) (s : Sys) : Sys :=
  if s.paused then s
  else
    match s.execResult with
    | GvbExecResult.End => emitStop env s
    | GvbExecResult.Continue => doStep env s
    | GvbExecResult.Sleep ns => { s with sleepTimer := armedSleepTimer ns }
    | GvbExecResult.InKey =>
      if env.assignKey then
        doStep env (stopCursorTimer { s with execInput := GvbExecInput.Key })
      else startCursorTimer s
    | GvbExecResult.KeyboardInput =>
      let s := startCursorTimer s
      if env.dialogAccepts then
        doStep env
          (stopCursorTimer { s with execInput := GvbExecInput.KeyboardInput })
      else emitStop env s
    | GvbExecResult.Error loc msg =>
      emitStop env
        { s with
            execResult := GvbExecResult.End,
            errorsSunk := s.errorsSunk ++ [(loc, msg)] }

/-- The lambda armed by GvbSimWindow::sleep: when the one-shot timer
expires it sets the last result back to Continue and, unless paused,
re-invokes execLater. -/
def sleepExpiry (env : Env) (s : Sys) : Sys :=
  let s := { s with sleepTimer := none, execResult := GvbExecResult.Continue }
  if s.paused then s else execLater env s

/-- GvbSimWindow::pause, the slot connected to the editor pause signal. -/
def pause (s : Sys) : Sys :=
  { s with paused := true }

/-- GvbSimWindow::cont, the slot connected to the editor cont signal:
clears the paused flag and schedules execLater. -/
def cont (env : Env) (s : Sys) : Sys :=
  execLater env { s with paused := false }

/-- GvbSimWindow::reset (the zero-argument overload) called from start:
clears the paused flag and resets the exec result and input. -/
def reset (s : Sys) : Sys :=
  { s with
      paused := false,
      execResult := GvbExecResult.Continue,
      execInput := GvbExecInput.None }

/-- GvbSimWindow::start, the slot connected to the editor start signal:
resets, starts the repaint timer, and performs the scheduled execLater. -/
def start (env : Env) (s : Sys) : Sys :=
  execLater env (startRepaintTimer (reset s))

end GvbSimWindow

/-- Raising a stop event from the UI: the state machine transitions and the
directly connected GvbSimWindow::stop slot runs. -/
def dispatchStop (env : Env) (s : Sys) : Sys :=
  GvbSimWindow.stop env
    { s with lifecycle := GvbEditor.transition s.lifecycle LifecycleEvent.stop }

/-- Raising a pause event from the UI. -/
def dispatchPause (s : Sys) : Sys :=
  GvbSimWindow.pause
    { s with
        lifecycle := GvbEditor.transition s.lifecycle LifecycleEvent.pause }

/-- Raising a cont event from the UI. -/
def dispatchCont (env : Env) (s : Sys) : Sys :=
  GvbSimWindow.cont env
    { s with lifecycle := GvbEditor.transition s.lifecycle LifecycleEvent.cont }

/-- The validation-protocol state of the structured keyboard-input dialog
(GvbSimInputDialog): the number of fields, the submit-all flag
m_validateAll, the two tally counters m_validatedFields and
m_validateOkFields, whether accept() has been called, and which per-field
inline error labels currently show a message (indexed by field number). -/
structure DialogState where
  fieldCount : Nat
  validateAll : Bool
  validatedFields : Nat
  validateOkFields : Nat
  accepted : Bool
  errorShown : Nat → Bool

namespace GvbSimInputDialog

/-- GvbSimInputDialog::endValidateAll: accept the dialog when every field
that completed validation succeeded, then clear the submit-all flag and
both counters. -/
def endValidateAll (s : DialogState) : DialogState :=
  let s :=
    if s.validateOkFields = s.validatedFields then { s with accepted := true }
    else s
  { s with validateAll := false, validatedFields := 0, validateOkFields := 0 }

/-- GvbSimInputDialog::fieldValidated: ignore reports while no submit-all
broadcast is in progress; otherwise tally the report and, once every field
has reported, finish the broadcast. -/
def fieldValidated (s : DialogState) (ok : Bool) : DialogState :=
  if s.validateAll = false then s
  else
    let s :=
      if ok then { s with validateOkFields := s.validateOkFields + 1 } else s
    let s := { s with validatedFields := s.validatedFields + 1 }
    if s.validatedFields = s.fieldCount then endValidateAll s else s

/-- GvbSimInputDialog::startValidateAll: set the submit-all flag, zero both
counters, and emit the validateAll signal (which triggers every field
editing-finished handler in turn). -/
def startValidateAll (s : DialogState) : DialogState :=
  { s with validateAll := true, validatedFields := 0, validateOkFields := 0 }

/-- One field editing-finished handler running for field i.  A report of
none models the string field whose UTF-16 conversion failed: the handler
shows the inline message and returns before calling fieldValidated.  A
report of some false shows the inline message and reports failure; a
report of some true clears the inline message and reports success. -/
def deliverReport (s : DialogState) (i : Nat) (r : Option Bool) : DialogState :=
  match r with
  | Option.none =>
    { s with errorShown := fun k => if k = i then true else s.errorShown k }
  | Option.some false =>
    fieldValidated
      { s with errorShown := fun k => if k = i then true else s.errorShown k }
      false
  | Option.some true =>
    fieldValidated
      { s with errorShown := fun k => if k = i then false else s.errorShown k }
      true

/-- Folding a list of indexed field reports over the dialog state. -/
def deliverAll (s : DialogState) (ps : List (Nat × Option Bool)) : DialogState :=
  ps.foldl (fun t p => deliverReport t p.1 p.2) s

/-- A whole submit-all broadcast (triggered by Enter, Ctrl+Enter or OK, see
GvbSimInputDialog::keyPressEvent and the accepted connection of the button
box): startValidateAll runs, then every field editing-finished handler runs
once, in field order, with its validation outcome. -/
def submitAll (s : DialogState) (reports : List (Option Bool)) : DialogState :=
  deliverAll (startValidateAll s) reports.enum

end GvbSimInputDialog

/-- A sample environment: the engine would end on the next step, no key is
buffered, stopping reports no secondary error, the dialog rejects. -/
def envNoKey : Env :=
  { execRet := fun _ => GvbExecResult.End,
    assignKey := false,
    stopErr := false,
    dialogAccepts := false }

/-- A sample running system state: lifecycle Started, not paused, last
result Continue, no pending input, repaint timer armed. -/
def sysBase : Sys :=
  { lifecycle := LifecycleState.Started,
    paused := false,
    execResult := GvbExecResult.Continue,
    execInput := GvbExecInput.None,
    timerCursor := false,
    timerRepaint := true,
    sleepTimer := none,
    cursorStarts := 0,
    steps := 0,
    vmStopCalls := 0,
    stopErrorsShown := 0,
    errorsSunk := [],
    stopRaised := 0 }

/-- A sample runtime-error location. -/
def locA : Location := { line := 10, start_column := 2, end_column := 5 }

/-- A sample two-field dialog session in the Editing state. -/
def dlgBase : DialogState :=
  { fieldCount := 2,
    validateAll := false,
    validatedFields := 0,
    validateOkFields := 0,
    accepted := false,
    errorShown := fun _ => false }

lemma GvbEditor.transition_eq_ref (s : LifecycleState) (e : LifecycleEvent) :
    GvbEditor.transition s e = refTransition s e := by
  cases s <;> cases e <;> rfl

lemma GvbEditor.dispatch_fst (s : LifecycleState) (ui : GvbEditor.EditorUi)
    (e : LifecycleEvent) :
    (GvbEditor.dispatch (s, ui) e).1 = refTransition s e := by
  cases s <;> cases e <;> rfl

lemma GvbEditor.foldl_dispatch_fst (evs : List LifecycleEvent) :
    ∀ (s : LifecycleState) (ui : GvbEditor.EditorUi),
      (evs.foldl GvbEditor.dispatch (s, ui)).1 = evs.foldl refTransition s := by
  induction evs with
  | nil => intro s ui; rfl
  | cons e rest ih =>
    intro s ui
    rw [List.foldl_cons, List.foldl_cons]
    have hpair : GvbEditor.dispatch (s, ui) e
        = ((GvbEditor.dispatch (s, ui) e).1, (GvbEditor.dispatch (s, ui) e).2) :=
      rfl
    rw [hpair, ih, GvbEditor.dispatch_fst]

/-- C1: starting from the initial state Stopped, dispatching any finite
sequence of start, pause, cont and stop events through the state machine of
GvbEditor::initStateMachine ends in exactly the state computed by the
reference transition table of the spec; unmatched events are dropped as
no-ops, and the state-entry callbacks only update UI state and raise no
further event, so no transition chaining occurs. -/
theorem C1_lifecycle_replay (evs : List LifecycleEvent)
    (ui : GvbEditor.EditorUi) :
    (evs.foldl GvbEditor.dispatch (.Stopped, ui)).1
      = evs.foldl refTransition .Stopped := by
  exact GvbEditor.foldl_dispatch_fst evs .Stopped ui

section SchedulerTheorems

lemma execLater_paused (env : Env) (s : Sys) (h : s.paused = true) :
    GvbSimWindow.execLater env s = s := by
  simp [GvbSimWindow.execLater, h]

/-- C2: while the scheduler is paused, every execLater invocation, and any
number of repeated invocations, returns with the whole state unchanged: no
step call is performed, the last ExecResult and the pending ExecInput are
untouched, and no timer or counter moves, so pausing loses no engine
state. -/
theorem C2_paused_noop (env : Env) (s : Sys) (h : s.paused = true) :
    ∀ n : Nat, (GvbSimWindow.execLater env)^[n] s = s := by
  intro n
  induction n with
  | zero => rfl
  | succ n ih =>
    rw [Function.iterate_succ_apply, execLater_paused env s h, ih]

/-- Witness for C2 at a concrete paused state and three invocations. -/
theorem C2_paused_noop_witness :
    { sysBase with paused := true }.paused = true
    ∧ (GvbSimWindow.execLater envNoKey)^[3] { sysBase with paused := true }
        = { sysBase with paused := true } :=
  ⟨rfl, C2_paused_noop envNoKey { sysBase with paused := true } rfl 3⟩

lemma execLater_end_fields (env : Env) (s : Sys)
    (h : s.execResult = GvbExecResult.End) :
    (GvbSimWindow.execLater env s).execResult = GvbExecResult.End
    ∧ (GvbSimWindow.execLater env s).steps = s.steps
    ∧ (GvbSimWindow.execLater env s).errorsSunk = s.errorsSunk
    ∧ (GvbSimWindow.execLater env s).paused = s.paused := by
  cases hp : s.paused with
  | true => simp [execLater_paused env s hp, h, hp]
  | false =>
    simp [GvbSimWindow.execLater, hp, h, GvbSimWindow.emitStop,
      GvbSimWindow.stop, GvbSimWindow.stopCursorTimer,
      GvbSimWindow.stopRepaintTimer]

lemma execLater_iterate_end (env : Env) (n : Nat) :
    ∀ s : Sys, s.execResult = GvbExecResult.End →
      ((GvbSimWindow.execLater env)^[n] s).steps = s.steps
      ∧ ((GvbSimWindow.execLater env)^[n] s).errorsSunk = s.errorsSunk := by
  induction n with
  | zero => intro s _; exact ⟨rfl, rfl⟩
  | succ n ih =>
    intro s h
    obtain ⟨hres, hsteps, hsunk, _⟩ := execLater_end_fields env s h
    rw [Function.iterate_succ_apply]
    obtain ⟨ih1, ih2⟩ := ih (GvbSimWindow.execLater env s) hres
    exact ⟨ih1.trans hsteps, ih2.trans hsunk⟩

/-- C6: when the last result is a runtime error, the execLater invocation
forwards the location and message to the editor diagnostic sink exactly
once, raises the stop event, and neither this invocation nor any number of
later invocations performs another step call or forwards the error again:
the error is never retried. -/
theorem C6_error_terminal (env : Env) (s : Sys) (loc : Location)
    (msg : String) (h1 : s.paused = false)
    (h2 : s.execResult = GvbExecResult.Error loc msg) :
    (GvbSimWindow.execLater env s).errorsSunk = s.errorsSunk ++ [(loc, msg)]
    ∧ (GvbSimWindow.execLater env s).stopRaised = s.stopRaised + 1
    ∧ (GvbSimWindow.execLater env s).steps = s.steps
    ∧ ∀ n : Nat,
        ((GvbSimWindow.execLater env)^[n]
            (GvbSimWindow.execLater env s)).steps = s.steps
        ∧ ((GvbSimWindow.execLater env)^[n]
            (GvbSimWindow.execLater env s)).errorsSunk
          = s.errorsSunk ++ [(loc, msg)] := by
  have hstep :
      GvbSimWindow.execLater env s
        = { s with
              lifecycle :=
                GvbEditor.transition s.lifecycle LifecycleEvent.stop,
              execResult := GvbExecResult.End,
              errorsSunk := s.errorsSunk ++ [(loc, msg)],
              timerCursor := false,
              timerRepaint := false,
              stopRaised := s.stopRaised + 1 } := by
    simp [GvbSimWindow.execLater, h1, h2, GvbSimWindow.emitStop,
      GvbSimWindow.stop, GvbSimWindow.stopCursorTimer,
      GvbSimWindow.stopRepaintTimer]
  refine ⟨by rw [hstep], by rw [hstep], by rw [hstep], ?_⟩
  intro n
  have hend : (GvbSimWindow.execLater env s).execResult = GvbExecResult.End :=
    by rw [hstep]
  obtain ⟨hs, he⟩ := execLater_iterate_end env n (GvbSimWindow.execLater env s) hend
  constructor
  · rw [hs, hstep]
  · rw [he, hstep]

/-- Witness for C6 at a concrete errored state, with two further
invocations. -/
theorem C6_error_terminal_witness :
    (GvbSimWindow.execLater envNoKey
        { sysBase with execResult := GvbExecResult.Error locA "err" }).errorsSunk
      = [(locA, "err")]
    ∧ ((GvbSimWindow.execLater envNoKey)^[2]
        (GvbSimWindow.execLater envNoKey
          { sysBase with execResult := GvbExecResult.Error locA "err" })).steps
      = 0 := by
  have h := C6_error_terminal envNoKey
    { sysBase with execResult := GvbExecResult.Error locA "err" } locA "err"
    rfl rfl
  exact ⟨h.1, (h.2.2.2 2).1⟩

/-- C3: evaluation of the code on the failing trace of the claim.  The run
is Started with last result Sleep, so the one-shot sleep timer is armed;
the user raises stop, which moves the lifecycle to Stopped, calls
gvb_vm_stop and forces the last result to End, but does not set the paused
flag and cannot cancel the already armed singleShot.  When the timer then
expires, the expiry lambda overwrites End with Continue and, finding the
window not paused, re-invokes execLater, which performs one engine step
call even though the lifecycle is Stopped — contradicting the claim that a
stop issued before expiry means no step call occurs at expiry. -/
theorem C3_step_after_stop_at_expiry :
    (dispatchStop envNoKey
        { sysBase with
            execResult := GvbExecResult.Sleep 1500000,
            sleepTimer := some 2 }).lifecycle = LifecycleState.Stopped
    ∧ (dispatchStop envNoKey
        { sysBase with
            execResult := GvbExecResult.Sleep 1500000,
            sleepTimer := some 2 }).execResult = GvbExecResult.End
    ∧ (dispatchStop envNoKey
        { sysBase with
            execResult := GvbExecResult.Sleep 1500000,
            sleepTimer := some 2 }).paused = false
    ∧ (GvbSimWindow.sleepExpiry envNoKey
        (dispatchStop envNoKey
          { sysBase with
              execResult := GvbExecResult.Sleep 1500000,
              sleepTimer := some 2 })).steps = 1 := by
  decide

/-- C4 counterexample: two durations where the armed timer is not the
mathematically exact quotient required by the claim.  At
ns = 2147483648000000 the 64-bit quotient is exactly 2 to the 31, which
narrows to a negative int msec argument, so Qt arms no timer at all
instead of a 2147483648 ms one; at the largest 64-bit duration the
addition of the rounding constant wraps around and a 0 ms timer is armed
instead of an 18446744073710 ms one. -/
theorem C4_counterexample :
    GvbSimWindow.armedSleepTimer 2147483648000000 = none
    ∧ (2147483648000000 + 500000) / 1000000 = 2147483648
    ∧ GvbSimWindow.armedSleepTimer (2 ^ 64 - 1) = some 0
    ∧ (2 ^ 64 - 1 + 500000) / 1000000 = 18446744073710 := by
  refine ⟨by decide, by decide, by decide, by decide⟩

/-- C4 amended: for every Sleep result whose duration plus the rounding
constant does not overflow 64 bits and whose quotient fits a nonnegative
32-bit int — every ns with (ns + 500000) / 1000000 below 2 to the 31,
that is sleeps of up to about 24.8 days — the armed one-shot timer lasts
exactly (ns + 500000) / 1000000 milliseconds, and no step call is issued
by that invocation.  Outside that domain the 64-bit sum wraps or the
narrowing to the int msec parameter truncates the quotient or makes it
negative, in which case Qt arms no timer; none of these is treated as an
error.  In particular a 1500000 ns sleep arms a 2 ms timer, and a
zero-length duration arms a 0 ms timer (handled by the Qt minimum timer
resolution, firing on the next event-loop pass) rather than being treated
as an error; negative durations are unrepresentable in the unsigned
nanosecond argument. -/
theorem C4_sleep_rounding (env : Env) (s : Sys) (ns : Nat)
    (h1 : s.paused = false) (h2 : s.execResult = GvbExecResult.Sleep ns)
    (h3 : ns + 500000 < 2 ^ 64)
    (h4 : (ns + 500000) / 1000000 < 2 ^ 31) :
    (GvbSimWindow.execLater env s).sleepTimer = some ((ns + 500000) / 1000000)
    ∧ (GvbSimWindow.execLater env s).steps = s.steps
    ∧ GvbSimWindow.armedSleepTimer 1500000 = some 2
    ∧ GvbSimWindow.armedSleepTimer 0 = some 0 := by
  have hms : GvbSimWindow.sleepMs ns = (ns + 500000) / 1000000 := by
    unfold GvbSimWindow.sleepMs
    rw [Nat.mod_eq_of_lt h3]
  have hmod : GvbSimWindow.sleepMs ns % 2 ^ 32 = (ns + 500000) / 1000000 := by
    rw [hms]
    exact Nat.mod_eq_of_lt (lt_trans h4 (by norm_num))
  have harg : GvbSimWindow.sleepMsecArg ns
      = (((ns + 500000) / 1000000 : Nat) : Int) := by
    unfold GvbSimWindow.sleepMsecArg
    rw [hmod, if_pos h4]
  have harmed : GvbSimWindow.armedSleepTimer ns
      = some ((ns + 500000) / 1000000) := by
    unfold GvbSimWindow.armedSleepTimer
    rw [harg, if_neg (not_lt.mpr (Int.natCast_nonneg _))]
    rw [Int.toNat_natCast]
  refine ⟨?_, ?_, by decide, by decide⟩
  · simp [GvbSimWindow.execLater, h1, h2, harmed]
  · simp [GvbSimWindow.execLater, h1, h2]

/-- Witness for C4 at the example duration of the spec scenario. -/
theorem C4_sleep_rounding_witness :
    (GvbSimWindow.execLater envNoKey
        { sysBase with execResult := GvbExecResult.Sleep 1500000 }).sleepTimer
      = some 2 := by
  have h := C4_sleep_rounding envNoKey
    { sysBase with execResult := GvbExecResult.Sleep 1500000 } 1500000
    rfl rfl (by decide) (by decide)
  simpa using h.1

/-- C5 counterexample: with the last result InKey and no assignable key
buffered, a first execLater invocation starts the cursor-blink timer; after
a pause and cont cycle the re-invoked execLater starts a second 500 ms
timer through startCursorTimer, which unconditionally arms a fresh timer
and overwrites the stored id, so across the two invocations the blink
scheduler is started twice, not exactly once as the claim requires. -/
theorem C5_counterexample :
    (GvbSimWindow.execLater envNoKey
        { sysBase with execResult := GvbExecResult.InKey }).cursorStarts = 1
    ∧ (dispatchCont envNoKey
        (dispatchPause
          (GvbSimWindow.execLater envNoKey
            { sysBase with execResult := GvbExecResult.InKey }))).cursorStarts
      = 2 := by
  decide

lemma execLater_inkey_nokey (env : Env) (s : Sys) (h1 : s.paused = false)
    (h2 : s.execResult = GvbExecResult.InKey) (h3 : env.assignKey = false) :
    GvbSimWindow.execLater env s = GvbSimWindow.startCursorTimer s := by
  simp [GvbSimWindow.execLater, h1, h2, h3]

/-- C5 amended: when the last result is InKey and the device reports no
buffered key assignable as input, every execLater invocation returns
without stepping and leaves the last result and pending input unchanged,
but each of the n invocations starts the cursor-blink scheduler anew —
startCursorTimer arms a fresh 500 ms timer and overwrites the stored timer
id each time, orphaning the previous timer — so after n invocations the
blink timer has been started s.cursorStarts + n times (not exactly once),
and the stored blink timer is armed whenever n is positive. -/
theorem C5_inkey_restarts_blink (env : Env) (s : Sys)
    (h1 : s.paused = false) (h2 : s.execResult = GvbExecResult.InKey)
    (h3 : env.assignKey = false) :
    ∀ n : Nat,
      ((GvbSimWindow.execLater env)^[n] s).execResult = GvbExecResult.InKey
      ∧ ((GvbSimWindow.execLater env)^[n] s).steps = s.steps
      ∧ ((GvbSimWindow.execLater env)^[n] s).execInput = s.execInput
      ∧ ((GvbSimWindow.execLater env)^[n] s).cursorStarts = s.cursorStarts + n
      ∧ ((GvbSimWindow.execLater env)^[n] s).timerCursor
          = (if n = 0 then s.timerCursor else true) := by
  intro n
  induction n generalizing s with
  | zero => exact ⟨h2, rfl, rfl, rfl, rfl⟩
  | succ n ih =>
    rw [Function.iterate_succ_apply, execLater_inkey_nokey env s h1 h2 h3]
    obtain ⟨ih1, ih2, ih3, ih4, ih5⟩ :=
      ih (GvbSimWindow.startCursorTimer s) h1 h2
    refine ⟨ih1, ih2, ih3, ?_, ?_⟩
    · rw [ih4]
      simp [GvbSimWindow.startCursorTimer]
      omega
    · rw [ih5]
      cases n with
      | zero => simp [GvbSimWindow.startCursorTimer]
      | succ m => simp

/-- Witness for C5 amended at a concrete waiting state and two
invocations. -/
theorem C5_inkey_restarts_blink_witness :
    ((GvbSimWindow.execLater envNoKey)^[2]
        { sysBase with execResult := GvbExecResult.InKey }).cursorStarts = 2
    ∧ ((GvbSimWindow.execLater envNoKey)^[2]
        { sysBase with execResult := GvbExecResult.InKey }).steps = 0 := by
  have h := C5_inkey_restarts_blink envNoKey
    { sysBase with execResult := GvbExecResult.InKey } rfl rfl rfl 2
  exact ⟨h.2.2.2.1, h.2.1⟩

/-- C7 counterexample: the normal end-of-run path reaches stop() from the
Started state with the last result already End (the End branch of
execLater raises stop); in that case stop() returns after killing the
timers without calling gvb_vm_stop, so stop() does not always ask the
engine to stop gracefully as the claim states. -/
theorem C7_counterexample :
    ({ sysBase with execResult := GvbExecResult.End } : Sys).lifecycle
      = LifecycleState.Started
    ∧ (dispatchStop envNoKey
        { sysBase with execResult := GvbExecResult.End }).vmStopCalls = 0
    ∧ (dispatchStop envNoKey
        { sysBase with execResult := GvbExecResult.End }).lifecycle
      = LifecycleState.Stopped := by
  decide

/-- C7 amended: raising stop from any non-Stopped lifecycle state always
results in the Stopped state with both the repaint timer and the
cursor-blink timer inactive afterwards, and forces the last ExecResult to
End; the engine is asked to stop gracefully exactly when the last result
was not already End (when the program already finished, the gvb_vm_stop
call is skipped), a secondary stop error is reported to the user exactly
once in that case, and the loop is not re-entered: no step call occurs. -/
theorem C7_stop_terminal (env : Env) (s : Sys)
    (_h : s.lifecycle ≠ LifecycleState.Stopped) :
    (dispatchStop env s).lifecycle = LifecycleState.Stopped
    ∧ (dispatchStop env s).timerCursor = false
    ∧ (dispatchStop env s).timerRepaint = false
    ∧ (dispatchStop env s).execResult = GvbExecResult.End
    ∧ (dispatchStop env s).vmStopCalls
        = s.vmStopCalls
          + (if s.execResult = GvbExecResult.End then 0 else 1)
    ∧ (dispatchStop env s).steps = s.steps
    ∧ (dispatchStop env s).stopErrorsShown
        = s.stopErrorsShown
          + (if s.execResult ≠ GvbExecResult.End ∧ env.stopErr = true
             then 1 else 0) := by
  have hlife :
      GvbEditor.transition s.lifecycle LifecycleEvent.stop
        = LifecycleState.Stopped := by
    cases hl : s.lifecycle <;> rfl
  cases hr : s.execResult <;>
    cases he : env.stopErr <;>
      simp [dispatchStop, GvbSimWindow.stop, GvbSimWindow.stopCursorTimer,
        GvbSimWindow.stopRepaintTimer, hr, he, hlife]

/-- Witness for C7 at a concrete paused run with a pending sleep result and
an engine that reports a secondary stop error. -/
theorem C7_stop_terminal_witness :
    (dispatchStop { envNoKey with stopErr := true }
        { sysBase with
            lifecycle := LifecycleState.Paused,
            paused := true,
            execResult := GvbExecResult.Sleep 7 }).lifecycle
      = LifecycleState.Stopped
    ∧ (dispatchStop { envNoKey with stopErr := true }
        { sysBase with
            lifecycle := LifecycleState.Paused,
            paused := true,
            execResult := GvbExecResult.Sleep 7 }).vmStopCalls = 1
    ∧ (dispatchStop { envNoKey with stopErr := true }
        { sysBase with
            lifecycle := LifecycleState.Paused,
            paused := true,
            execResult := GvbExecResult.Sleep 7 }).stopErrorsShown = 1 := by
  have h := C7_stop_terminal { envNoKey with stopErr := true }
    { sysBase with
        lifecycle := LifecycleState.Paused,
        paused := true,
        execResult := GvbExecResult.Sleep 7 }
    (by decide)
  refine ⟨h.1, ?_, ?_⟩
  · have := h.2.2.2.2.1
    simpa using this
  · have := h.2.2.2.2.2.2
    simpa using this

end SchedulerTheorems

section DialogTheorems

open GvbSimInputDialog

lemma endValidateAll_errorShownEq (s : DialogState) :
    (endValidateAll s).errorShown = s.errorShown := by
  unfold endValidateAll
  split_ifs <;> rfl

lemma endValidateAll_fieldCount (s : DialogState) :
    (endValidateAll s).fieldCount = s.fieldCount := by
  unfold endValidateAll
  split_ifs <;> rfl

lemma endValidateAll_accepted (s : DialogState) (h : s.accepted = false) :
    (endValidateAll s).accepted
      = decide (s.validateOkFields = s.validatedFields) := by
  unfold endValidateAll
  split_ifs with hc
  · simp [hc]
  · simp [h, hc]

lemma fieldValidated_flag_false (s : DialogState) (ok : Bool)
    (h : s.validateAll = false) : fieldValidated s ok = s := by
  simp [fieldValidated, h]

lemma fieldValidated_step_incomplete_t (s : DialogState)
    (h1 : s.validateAll = true) (h2 : s.validatedFields + 1 ≠ s.fieldCount) :
    fieldValidated s true =
      { s with
          validateOkFields := s.validateOkFields + 1,
          validatedFields := s.validatedFields + 1 } := by
  simp [fieldValidated, h1, h2]

lemma fieldValidated_step_incomplete_f (s : DialogState)
    (h1 : s.validateAll = true) (h2 : s.validatedFields + 1 ≠ s.fieldCount) :
    fieldValidated s false =
      { s with validatedFields := s.validatedFields + 1 } := by
  simp [fieldValidated, h1, h2]

lemma fieldValidated_step_complete_t (s : DialogState)
    (h1 : s.validateAll = true) (h2 : s.validatedFields + 1 = s.fieldCount) :
    fieldValidated s true =
      endValidateAll
        { s with
            validateOkFields := s.validateOkFields + 1,
            validatedFields := s.validatedFields + 1 } := by
  simp [fieldValidated, h1, h2]

lemma fieldValidated_step_complete_f (s : DialogState)
    (h1 : s.validateAll = true) (h2 : s.validatedFields + 1 = s.fieldCount) :
    fieldValidated s false =
      endValidateAll { s with validatedFields := s.validatedFields + 1 } := by
  simp [fieldValidated, h1, h2]

lemma fieldValidated_errorShown (s : DialogState) (ok : Bool) :
    (fieldValidated s ok).errorShown = s.errorShown := by
  by_cases h : s.validateAll = false
  · rw [fieldValidated_flag_false s ok h]
  · have h1 : s.validateAll = true := by
      revert h; cases s.validateAll <;> simp
    by_cases h2 : s.validatedFields + 1 = s.fieldCount
    · cases ok
      · rw [fieldValidated_step_complete_f s h1 h2, endValidateAll_errorShownEq]
      · rw [fieldValidated_step_complete_t s h1 h2, endValidateAll_errorShownEq]
    · cases ok
      · rw [fieldValidated_step_incomplete_f s h1 h2]
      · rw [fieldValidated_step_incomplete_t s h1 h2]

lemma fieldValidated_fieldCount (s : DialogState) (ok : Bool) :
    (fieldValidated s ok).fieldCount = s.fieldCount := by
  by_cases h : s.validateAll = false
  · rw [fieldValidated_flag_false s ok h]
  · have h1 : s.validateAll = true := by
      revert h; cases s.validateAll <;> simp
    by_cases h2 : s.validatedFields + 1 = s.fieldCount
    · cases ok
      · rw [fieldValidated_step_complete_f s h1 h2, endValidateAll_fieldCount]
      · rw [fieldValidated_step_complete_t s h1 h2, endValidateAll_fieldCount]
    · cases ok
      · rw [fieldValidated_step_incomplete_f s h1 h2]
      · rw [fieldValidated_step_incomplete_t s h1 h2]

lemma deliverReport_some_eq (s : DialogState) (i : Nat) (b : Bool) :
    deliverReport s i (some b)
      = fieldValidated
          { s with
              errorShown := fun k => if k = i then !b else s.errorShown k }
          b := by
  cases b <;> rfl

/-- C9: in a structured-input dialog with exactly one field, a successful
validation of that single field — its editing-finished handler reporting
success during the broadcast that the Enter key (the finished-editing
trigger) starts through keyPressEvent — immediately accepts the dialog:
the single report completes the tally with one success out of one
completion, so no separate submit-all action such as the OK button is
required. -/
theorem C9_single_field_accepts (s : DialogState) (h1 : s.fieldCount = 1)
    (h2 : s.accepted = false) :
    (GvbSimInputDialog.submitAll s [some true]).accepted = true := by
  simp [submitAll, deliverAll, List.enum, deliverReport_some_eq,
    startValidateAll, fieldValidated, endValidateAll, h1, h2]

/-- Witness for C9 at a concrete one-field dialog. -/
theorem C9_single_field_accepts_witness :
    (GvbSimInputDialog.submitAll { dlgBase with fieldCount := 1 }
        [some true]).accepted = true :=
  C9_single_field_accepts { dlgBase with fieldCount := 1 } rfl rfl

/-- C10: a per-field validation that completes while no submit-all
broadcast is in progress is ignored entirely — fieldValidated returns the
state unchanged when the validate-all flag is unset — and every submit-all
broadcast starts by resetting both tally counters to zero, so opportunistic
validations performed before the user triggers submit-all never contribute
to the acceptance tally, can never accept the dialog, and have no effect on
the outcome of a later broadcast. -/
theorem C10_opportunistic_ignored (s : DialogState)
    (h : s.validateAll = false) :
    (∀ ok : Bool, GvbSimInputDialog.fieldValidated s ok = s)
    ∧ (∀ calls : List Bool,
        calls.foldl GvbSimInputDialog.fieldValidated s = s)
    ∧ (∀ t : DialogState,
        (GvbSimInputDialog.startValidateAll t).validatedFields = 0
        ∧ (GvbSimInputDialog.startValidateAll t).validateOkFields = 0)
    ∧ ∀ (calls : List Bool) (reports : List (Option Bool)),
        GvbSimInputDialog.submitAll
            (calls.foldl GvbSimInputDialog.fieldValidated s) reports
          = GvbSimInputDialog.submitAll s reports := by
  have hfold : ∀ calls : List Bool,
      calls.foldl GvbSimInputDialog.fieldValidated s = s := by
    intro calls
    induction calls with
    | nil => rfl
    | cons c rest ih =>
      rw [List.foldl_cons, fieldValidated_flag_false s c h, ih]
  exact ⟨fun ok => fieldValidated_flag_false s ok h, hfold,
    fun t => ⟨rfl, rfl⟩, fun calls reports => by rw [hfold calls]⟩

/-- Witness for C10 at a concrete dialog state and report sequence. -/
theorem C10_opportunistic_ignored_witness :
    List.foldl GvbSimInputDialog.fieldValidated dlgBase [true, false, true]
      = dlgBase
    ∧ GvbSimInputDialog.submitAll
        (List.foldl GvbSimInputDialog.fieldValidated dlgBase [true, false])
        [some true, some true]
      = GvbSimInputDialog.submitAll dlgBase [some true, some true] := by
  have h := C10_opportunistic_ignored dlgBase rfl
  exact ⟨h.2.1 [true, false, true], h.2.2.2 [true, false] [some true, some true]⟩

lemma deliverAll_nil (s : DialogState) : deliverAll s [] = s := rfl

lemma deliverAll_cons (s : DialogState) (p : Nat × Option Bool)
    (ps : List (Nat × Option Bool)) :
    deliverAll s (p :: ps) = deliverAll (deliverReport s p.1 p.2) ps := rfl

lemma deliverAll_incomplete :
    ∀ (ps : List (Nat × Option Bool)) (s : DialogState),
      s.validateAll = true → s.accepted = false →
      s.validatedFields + ps.countP (fun q => q.2.isSome) < s.fieldCount →
      (deliverAll s ps).accepted = false
      ∧ (deliverAll s ps).validateAll = true
      ∧ (deliverAll s ps).validatedFields
          = s.validatedFields + ps.countP (fun q => q.2.isSome)
      ∧ (deliverAll s ps).fieldCount = s.fieldCount := by
  intro ps
  induction ps with
  | nil =>
    intro s h1 h2 _h3
    exact ⟨h2, h1, by simp [deliverAll_nil], rfl⟩
  | cons p rest ih =>
    intro s h1 h2 h3
    obtain ⟨i, r⟩ := p
    obtain ⟨n, va, vf, vo, acc, es⟩ := s
    dsimp only at h1 h2 h3 ⊢
    subst h1
    subst h2
    cases r with
    | none =>
      have hc : ((i, (Option.none : Option Bool)) :: rest).countP
          (fun q => q.2.isSome) = rest.countP (fun q => q.2.isSome) := by
        rw [List.countP_cons]; simp
      rw [hc] at h3 ⊢
      rw [deliverAll_cons]
      dsimp only [deliverReport]
      exact ih (DialogState.mk n true vf vo false
        (fun k => if k = i then true else es k)) rfl rfl h3
    | some b =>
      have hc : ((i, some b) :: rest).countP (fun q => q.2.isSome)
          = rest.countP (fun q => q.2.isSome) + 1 := by
        rw [List.countP_cons]; simp
      rw [hc] at h3 ⊢
      rw [deliverAll_cons]
      cases b with
      | false =>
        dsimp only [deliverReport]
        rw [fieldValidated_step_incomplete_f _ rfl (by dsimp only; omega)]
        dsimp only
        have hres := ih (DialogState.mk n true (vf + 1) vo false
          (fun k => if k = i then true else es k)) rfl rfl
          (by dsimp only; omega)
        refine ⟨hres.1, hres.2.1, ?_, hres.2.2.2⟩
        rw [hres.2.2.1]
        dsimp only
        omega
      | true =>
        dsimp only [deliverReport]
        rw [fieldValidated_step_incomplete_t _ rfl (by dsimp only; omega)]
        dsimp only
        have hres := ih (DialogState.mk n true (vf + 1) (vo + 1) false
          (fun k => if k = i then false else es k)) rfl rfl
          (by dsimp only; omega)
        refine ⟨hres.1, hres.2.1, ?_, hres.2.2.2⟩
        rw [hres.2.2.1]
        dsimp only
        omega

lemma deliverAll_complete :
    ∀ (ps : List (Nat × Option Bool)) (s : DialogState),
      (∀ p ∈ ps, (p.2).isSome = true) →
      s.validateAll = true → s.accepted = false →
      s.validatedFields + ps.length = s.fieldCount →
      ps ≠ [] →
      (deliverAll s ps).accepted
        = decide (s.validateOkFields + ps.countP (fun q => q.2 == some true)
            = s.fieldCount) := by
  intro ps
  induction ps with
  | nil => intro s _ _ _ _ hne; exact absurd rfl hne
  | cons p rest ih =>
    intro s hall h1 h2 hlen _
    obtain ⟨i, r⟩ := p
    have hr : (i, r).2.isSome = true := hall _ (List.mem_cons_self _ _)
    obtain ⟨b, hb⟩ := Option.isSome_iff_exists.mp hr
    cases hb
    obtain ⟨n, va, vf, vo, acc, es⟩ := s
    dsimp only at h1 h2 hlen ⊢
    subst h1
    subst h2
    simp only [List.length_cons] at hlen
    cases rest with
    | nil =>
      simp only [List.length_nil] at hlen
      cases b with
      | false =>
        rw [deliverAll_cons]
        dsimp only [deliverReport]
        rw [fieldValidated_step_complete_f _ rfl (by dsimp only; omega)]
        rw [deliverAll_nil, endValidateAll_accepted _ rfl]
        dsimp only
        rw [decide_eq_decide]
        simp only [List.countP_cons, List.countP_nil]
        simp
        omega
      | true =>
        rw [deliverAll_cons]
        dsimp only [deliverReport]
        rw [fieldValidated_step_complete_t _ rfl (by dsimp only; omega)]
        rw [deliverAll_nil, endValidateAll_accepted _ rfl]
        dsimp only
        rw [decide_eq_decide]
        simp only [List.countP_cons, List.countP_nil]
        simp
        omega
    | cons q rest2 =>
      have hall2 : ∀ p ∈ q :: rest2, (p.2).isSome = true :=
        fun p hp => hall p (List.mem_cons_of_mem _ hp)
      simp only [List.length_cons] at hlen
      cases b with
      | false =>
        rw [deliverAll_cons]
        dsimp only [deliverReport]
        rw [fieldValidated_step_incomplete_f _ rfl (by dsimp only; omega)]
        dsimp only
        have hres := ih (DialogState.mk n true (vf + 1) vo false
            (fun k => if k = i then true else es k)) hall2 rfl rfl
            (by dsimp only; simp only [List.length_cons]; omega)
            (by simp)
        rw [hres]
        dsimp only
        rw [decide_eq_decide]
        simp only [List.countP_cons]
        simp
      | true =>
        rw [deliverAll_cons]
        dsimp only [deliverReport]
        rw [fieldValidated_step_incomplete_t _ rfl (by dsimp only; omega)]
        dsimp only
        have hres := ih (DialogState.mk n true (vf + 1) (vo + 1) false
            (fun k => if k = i then false else es k)) hall2 rfl rfl
            (by dsimp only; simp only [List.length_cons]; omega)
            (by simp)
        rw [hres]
        dsimp only
        rw [decide_eq_decide]
        simp only [List.countP_cons]
        simp
        omega

lemma deliverAll_errorShown_mem :
    ∀ (ps : List (Nat × Option Bool)) (s : DialogState) (i : Nat),
      (∀ p ∈ ps, p.1 = i → p.2 = some false) →
      (s.errorShown i = true ∨ (i, some false) ∈ ps) →
      (deliverAll s ps).errorShown i = true := by
  intro ps
  induction ps with
  | nil =>
    intro s i _ hd
    rcases hd with hd | hd
    · exact hd
    · simp at hd
  | cons p rest ih =>
    intro s i hall hd
    obtain ⟨j, r⟩ := p
    rw [deliverAll_cons]
    have hall2 : ∀ p ∈ rest, p.1 = i → p.2 = some false :=
      fun p hp he => hall p (List.mem_cons_of_mem _ hp) he
    by_cases hij : j = i
    · subst hij
      have hr : r = some false := hall (j, r) (List.mem_cons_self _ _) rfl
      cases hr
      apply ih _ j hall2
      left
      rw [deliverReport_some_eq, fieldValidated_errorShown]
      simp
    · apply ih _ i hall2
      rcases hd with hd | hd
      · left
        have hne : ¬ i = j := fun h => hij h.symm
        cases r with
        | none =>
          dsimp only [deliverReport]
          rw [if_neg hne]
          exact hd
        | some b =>
          rw [deliverReport_some_eq, fieldValidated_errorShown]
          dsimp only
          rw [if_neg hne]
          exact hd
      · right
        rcases List.mem_cons.mp hd with hd | hd
        · exact absurd (congrArg Prod.fst hd).symm hij
        · exact hd

lemma countP_enum_isSome (reports : List (Option Bool)) :
    reports.enum.countP (fun q => q.2.isSome)
      = reports.countP (fun r => r.isSome) := by
  conv_rhs => rw [← List.enum_map_snd reports]
  rw [List.countP_map]
  rfl

lemma countP_enum_someTrue (reports : List (Option Bool)) :
    reports.enum.countP (fun q => q.2 == some true)
      = reports.countP (fun r => r == some true) := by
  conv_rhs => rw [← List.enum_map_snd reports]
  rw [List.countP_map]
  rfl

/-- C8: the structured-input dialog transitions to Accepted exactly when,
during a submit-all broadcast, the number of fields that reported a
successful validation equals the number of fields that reported a completed
validation and both equal the field count; whenever some field reports
failure, the dialog is not accepted — it stays in the Editing state, no
values are handed to the engine — and that field shows its inline error
message. -/
theorem C8_submit_all_acceptance (s : DialogState)
    (reports : List (Option Bool)) (hacc : s.accepted = false)
    (hlen : reports.length = s.fieldCount) (hpos : 0 < s.fieldCount) :
    ((GvbSimInputDialog.submitAll s reports).accepted = true
      ↔ reports.countP (fun r => r == some true)
          = reports.countP (fun r => r.isSome)
        ∧ reports.countP (fun r => r.isSome) = s.fieldCount)
    ∧ ∀ i : Nat, ∀ hi : i < reports.length,
        reports[i] = some false →
          (GvbSimInputDialog.submitAll s reports).accepted = false
          ∧ (GvbSimInputDialog.submitAll s reports).errorShown i = true := by
  have hiff : (GvbSimInputDialog.submitAll s reports).accepted = true
      ↔ reports.countP (fun r => r == some true)
          = reports.countP (fun r => r.isSome)
        ∧ reports.countP (fun r => r.isSome) = s.fieldCount := by
    by_cases hall :
        reports.countP (fun r => r.isSome) = reports.length
    · have hallmem : ∀ p ∈ reports.enum, (p.2).isSome = true := by
        intro p hp
        have hmem : p.2 ∈ reports := by
          have h1 := List.mem_map_of_mem Prod.snd hp
          rwa [List.enum_map_snd] at h1
        exact List.countP_eq_length.mp hall p.2 hmem
      have hB := deliverAll_complete reports.enum
        (GvbSimInputDialog.startValidateAll s) hallmem rfl hacc
        (by
          dsimp only [GvbSimInputDialog.startValidateAll]
          rw [List.enum_length, hlen]
          omega)
        (by
          have h2 : 0 < reports.enum.length := by
            rw [List.enum_length, hlen]; exact hpos
          exact List.length_pos.mp h2)
      rw [show GvbSimInputDialog.submitAll s reports
          = deliverAll (GvbSimInputDialog.startValidateAll s) reports.enum
          from rfl, hB]
      dsimp only [GvbSimInputDialog.startValidateAll]
      rw [countP_enum_someTrue]
      simp only [decide_eq_true_eq]
      constructor
      · intro h3
        refine ⟨?_, ?_⟩ <;> omega
      · intro h3
        omega
    · have hlt : reports.countP (fun r => r.isSome) < reports.length :=
        lt_of_le_of_ne (List.countP_le_length _) hall
      have hA := deliverAll_incomplete reports.enum
        (GvbSimInputDialog.startValidateAll s) rfl hacc
        (by
          dsimp only [GvbSimInputDialog.startValidateAll]
          rw [countP_enum_isSome]
          omega)
      rw [show GvbSimInputDialog.submitAll s reports
          = deliverAll (GvbSimInputDialog.startValidateAll s) reports.enum
          from rfl, hA.1]
      constructor
      · intro h3
        exact absurd h3 (by simp)
      · intro h3
        omega
  refine ⟨hiff, ?_⟩
  intro i hi hfalse
  have haccf : (GvbSimInputDialog.submitAll s reports).accepted = false := by
    cases hacc2 : (GvbSimInputDialog.submitAll s reports).accepted with
    | false => rfl
    | true =>
      obtain ⟨hct, hcs⟩ := hiff.mp hacc2
      have hclen : reports.countP (fun r => r == some true)
          = reports.length := by omega
      have hmem : reports[i] ∈ reports := List.getElem_mem hi
      have htrue := List.countP_eq_length.mp hclen reports[i] hmem
      rw [hfalse] at htrue
      simp at htrue
  refine ⟨haccf, ?_⟩
  have herr := deliverAll_errorShown_mem reports.enum
    (GvbSimInputDialog.startValidateAll s) i
    (by
      intro p hp hpi
      have h1 := List.mem_enum_iff_getElem?.mp hp
      rw [hpi, List.getElem?_eq_getElem hi, hfalse] at h1
      exact (Option.some.injEq _ _ ▸ h1).symm
    )
    (Or.inr (List.mk_mem_enum_iff_getElem?.mpr
      (by rw [List.getElem?_eq_getElem hi, hfalse])))
  exact herr

/-- Witness for C8 at a concrete two-field dialog where the second field
reports failure. -/
theorem C8_submit_all_acceptance_witness :
    (GvbSimInputDialog.submitAll dlgBase [some true, some false]).accepted
      = false
    ∧ (GvbSimInputDialog.submitAll dlgBase
        [some true, some false]).errorShown 1 = true := by
  have h := C8_submit_all_acceptance dlgBase [some true, some false]
    rfl rfl (by decide)
  exact h.2 1 (by decide) rfl

end DialogTheorems

end Wqxtools
